import Mathlib

/-!
# Kaagjee order/payment core — shallow embedding

Shallow embedding of the cart → order → payment-reconciliation core of the
Kaagjee backend (`apps/orders/models.py` and `apps/orders/views.py`).

Conventions of the embedding:
* Python `Decimal` money values are modelled as `ℚ`: every operation the core
  performs on them (`+`, `-`, `/ 2`, comparison) is exact decimal arithmetic at
  these magnitudes (`max_digits=10` against Decimal's 28-digit context), so
  the rational model is faithful.
* Timestamps and dates are opaque `Nat` ticks supplied by callers
  (`timezone.now()` is environment input); "+ 7 days" becomes `+ 7`.
* The database is a record of entity lists (`DB`); Django row updates become
  list `map`s keyed on the entity's unique identifier.
* External collaborators are oracles passed as arguments: whether
  `razorpay.order.create` succeeds (`gatewayOk`), the gateway order id it
  returns, and whether `verify_payment_signature` accepts (`sigValid`).
* A Django view wrapped in `@transaction.atomic` commits its writes whenever
  it returns a `Response` (even an error response) and rolls back only when an
  exception escapes.  Each embedded operation therefore returns the post-state
  exactly as committed on each path of the source.
-/

namespace Kaagjee

/-- Statuses of `Order` (`apps/orders/models.py::Order.Status`). -/
inductive OrderStatus where
  | pending
  | partial_paid
  | paid
  | processing
  | completed
  | cancelled
  | refunded
  deriving DecidableEq, Repr

/-- Payment types of `Order` (`Order.PaymentType`). -/
inductive PaymentType where
  | full
  | half
  deriving DecidableEq, Repr

/-- Statuses of `Payment` (`Payment.Status`). -/
inductive PaymentStatus where
  | created
  | pending
  | success
  | failed
  | refunded
  deriving DecidableEq, Repr

/-- Legs a `Payment` can pay for (`Payment.PaymentFor`). -/
inductive PaymentFor where
  | first
  | second
  | full
  deriving DecidableEq, Repr

/-- Statuses of `FormSubmission` (`FormSubmission.Status`). -/
inductive SubmissionStatus where
  | draft
  | submitted
  | in_cart
  | ordered
  | processing
  | completed
  | cancelled
  deriving DecidableEq, Repr

/-- The fields of `apps/products/models.py::Product` the order core reads or
writes: pricing/half-payment flags (read at checkout) and `orders_count`
(incremented on payment verification). -/
structure Product where
  id : Nat
  title : String
  slug : String
  full_price : ℚ
  half_price : ℚ
  allow_half_payment : Bool
  orders_count : Nat
  deriving DecidableEq, Repr

/-- Model of `apps/orders/models.py::FormSubmission` (fields the core touches). -/
structure FormSubmission where
  id : Nat
  product_id : Nat
  status : SubmissionStatus
  price_at_submission : ℚ
  deriving DecidableEq, Repr

/-- Model of `apps/orders/models.py::CartItem`; the cart is the list of these. -/
structure CartItem where
  product_id : Nat
  form_submission_id : Nat
  unit_price : ℚ
  deriving DecidableEq, Repr

/-- Model of `apps/orders/models.py::Order`. -/
structure Order where
  order_id : String
  status : OrderStatus
  payment_type : PaymentType
  total_amount : ℚ
  paid_amount : ℚ
  pending_amount : ℚ
  first_payment_amount : ℚ
  second_payment_amount : ℚ
  first_payment_date : Option Nat
  second_payment_date : Option Nat
  second_payment_due_date : Option Nat
  user_name : String
  user_email : String
  user_phone : String
  user_notes : String
  deriving DecidableEq, Repr

/-- Model of `apps/orders/models.py::OrderItem` (snapshot of a cart item). -/
structure OrderItem where
  order_id : String
  product_id : Option Nat
  form_submission_id : Option Nat
  product_title : String
  product_slug : String
  unit_price : ℚ
  deriving DecidableEq, Repr

/-- Model of `apps/orders/models.py::Payment`. -/
structure Payment where
  payment_id : String
  order_id : String
  payment_for : PaymentFor
  amount : ℚ
  razorpay_order_id : String
  razorpay_payment_id : String
  razorpay_signature : String
  status : PaymentStatus
  error_message : String
  paid_at : Option Nat
  deriving DecidableEq, Repr

/-- The persistent state the order/payment core reads and writes. -/
structure DB where
  products : List Product
  submissions : List FormSubmission
  cartItems : List CartItem
  orders : List Order
  orderItems : List OrderItem
  payments : List Payment
  deriving DecidableEq, Repr

/-- Model of `Order.save` (`apps/orders/models.py` lines 190–210), minus `order_id`
generation (callers of the embedding supply the generated id): recompute
`pending_amount = total_amount - paid_amount`, then auto-derive `status`
from the amounts exactly as the source does. -/
def Order.save (o : Order) : Order :=
  let o1 := { o with pending_amount := o.total_amount - o.paid_amount }
  if o1.total_amount ≤ o1.paid_amount then
    if o1.status = .processing ∨ o1.status = .completed ∨ o1.status = .cancelled then
      o1
    else
      { o1 with status := .paid }
  else if 0 < o1.paid_amount then
    if o1.status = .pending then { o1 with status := .partial_paid } else o1
  else
    o1

/-- Cart total: `Cart.total_amount` is the sum of the items' `unit_price`
(`apps/orders/models.py::Cart.total_amount`). -/
def cartTotalAmount (db : DB) : ℚ :=
  (db.cartItems.map (·.unit_price)).sum

/-- Product lookup by primary key (Django FK dereference). -/
def findProduct (db : DB) (pid : Nat) : Option Product :=
  db.products.find? (fun p => p.id == pid)

/-- The first-leg amount computed at checkout
(`apps/orders/views.py` lines 446–451): half of the total for a half
payment, the whole total otherwise.  The source performs no rounding. -/
def firstPaymentAmount (ptype : PaymentType) (total : ℚ) : ℚ :=
  if ptype = .half then total / 2 else total

/-- The second-leg amount computed at checkout (same lines):
`total_amount - first_payment` for a half payment, `0` otherwise. -/
def secondPaymentAmount (ptype : PaymentType) (total : ℚ) : ℚ :=
  if ptype = .half then total - firstPaymentAmount ptype total else 0

/-- Test of the half-payment guard for one cart item
(`apps/orders/views.py` lines 436–437): the item's product does not
allow half payment.  A dangling product reference cannot trigger the guard
(`item.product` is a non-null FK in the source). -/
def halfDisallowed (db : DB) (it : CartItem) : Bool :=
  match findProduct db it.product_id with
  | some p => !p.allow_half_payment
  | none => false

/-- Outcomes of `CheckoutView.post` other than success. -/
inductive CheckoutErr where
  | emptyCart
  /-- carries the f-string message naming the offending product -/
  | halfNotAllowed (message : String)
  | gatewayError
  deriving DecidableEq, Repr

/-- Model of `CheckoutView.post` (`apps/orders/views.py` lines 391–534).

Arguments beyond the request body: `newOrderId` is the generated
`KJ-...` id, `today` the current date tick, `gatewayOk` whether
`razorpay.order.create` succeeds, `rzpOrderId` the gateway order id it
returns, `newPaymentId` the generated `PAY-...` id.

Paths, exactly as in the source:
1. empty cart → 400, no state change;
2. half payment with a product disallowing it → 400 naming the product,
   no state change;
3. otherwise create the Order (via `Order.save`), snapshot each cart item
   into an OrderItem, mark each submission ORDERED, clear the cart; then
   call the gateway:
   * on gateway failure the source catches the exception, calls
     `order.delete()` (cascading to its OrderItems) and returns a 500 —
     so the transaction commits with the cart cleared and the
     submissions still ORDERED;
   * on success a Payment in `created` status for the first leg is added. -/
def checkout (db : DB) (ptype : PaymentType)
    (uname uemail uphone unotes : String) (newOrderId : String)
    (today : Nat) (gatewayOk : Bool) (rzpOrderId newPaymentId : String) :
    DB × Except CheckoutErr String :=
  if db.cartItems.length = 0 then
    (db, .error .emptyCart)
  else
    match db.cartItems.find? (fun it => ptype == .half && halfDisallowed db it) with
    | some it =>
        (db, .error (.halfNotAllowed
          ("Half payment not allowed for: " ++
            (((findProduct db it.product_id).map (·.title)).getD ""))))
    | none =>
        let total := cartTotalAmount db
        let firstPay := firstPaymentAmount ptype total
        let secondPay := secondPaymentAmount ptype total
        let order : Order := Order.save
          { order_id := newOrderId
            status := .pending
            payment_type := ptype
            total_amount := total
            paid_amount := 0
            pending_amount := 0
            first_payment_amount := firstPay
            second_payment_amount := secondPay
            first_payment_date := none
            second_payment_date := none
            second_payment_due_date :=
              if ptype = .half then some (today + 7) else none
            user_name := uname
            user_email := uemail
            user_phone := uphone
            user_notes := unotes }
        let newItems : List OrderItem := db.cartItems.map (fun ci =>
          { order_id := newOrderId
            product_id := some ci.product_id
            form_submission_id := some ci.form_submission_id
            product_title := (((findProduct db ci.product_id).map (·.title)).getD "")
            product_slug := (((findProduct db ci.product_id).map (·.slug)).getD "")
            unit_price := ci.unit_price })
        let subs := db.submissions.map (fun s =>
          if db.cartItems.any (fun ci => ci.form_submission_id == s.id) then
            { s with status := .ordered }
          else s)
        let db1 : DB :=
          { db with
            orders := db.orders ++ [order]
            orderItems := db.orderItems ++ newItems
            submissions := subs
            cartItems := [] }
        if gatewayOk then
          let payment : Payment :=
            { payment_id := newPaymentId
              order_id := newOrderId
              payment_for := if ptype = .half then .first else .full
              amount := firstPay
              razorpay_order_id := rzpOrderId
              razorpay_payment_id := ""
              razorpay_signature := ""
              status := .created
              error_message := ""
              paid_at := none }
          ({ db1 with payments := db1.payments ++ [payment] }, .ok newOrderId)
        else
          ({ db1 with
              orders := db1.orders.filter (fun o => !(o.order_id == newOrderId))
              orderItems := db1.orderItems.filter (fun oi => !(oi.order_id == newOrderId)) },
            .error .gatewayError)

/-- Outcomes of `VerifyPaymentView.post` other than success. -/
inductive VerifyErr where
  | paymentNotFound
  | signatureFailed
  /-- unreachable when referential integrity holds (`Payment.order` is a
  non-null FK); an escaped exception would roll the transaction back -/
  | internalError
  deriving DecidableEq, Repr

/-- For each OrderItem of the settled order the source increments the
referenced product's `orders_count` and saves it
(`apps/orders/views.py` lines 611–615). -/
def bumpProducts (items : List OrderItem) (products : List Product) : List Product :=
  items.foldl (fun ps it =>
    match it.product_id with
    | none => ps
    | some pid => ps.map (fun pr =>
        if pr.id == pid then { pr with orders_count := pr.orders_count + 1 } else pr))
    products

/-- Model of `VerifyPaymentView.post` (`apps/orders/views.py` lines 537–625).

`sigValid` is the verdict of the gateway's
`verify_payment_signature` on the submitted triple, `now` the current
timestamp.  Paths, exactly as the source:
1. no Payment with this `razorpay_order_id` (for the requesting user) →
   404, no state change;
2. signature rejected → the Payment is marked `failed` with an error
   message and saved (the transaction commits this audit record), 400;
3. otherwise the Payment is marked `success` with `paid_at`, the order's
   `paid_amount` is increased by `payment.amount` (no check that the
   Payment was already `success`), the first/second payment date stamped
   by `payment_for`, the order saved (recomputing `pending_amount` and
   status), and each order item's product has `orders_count` incremented. -/
def verifyPayment (db : DB) (rzpOrderId rzpPaymentId rzpSignature : String)
    (sigValid : Bool) (now : Nat) : DB × Except VerifyErr String :=
  match db.payments.find? (fun p => p.razorpay_order_id == rzpOrderId) with
  | none => (db, .error .paymentNotFound)
  | some payment =>
    if !sigValid then
      let p' := { payment with
        status := .failed
        error_message := "Signature verification failed" }
      ({ db with payments := db.payments.map (fun q =>
          if q.payment_id == payment.payment_id then p' else q) },
        .error .signatureFailed)
    else
      let p' := { payment with
        razorpay_payment_id := rzpPaymentId
        razorpay_signature := rzpSignature
        status := .success
        paid_at := some now }
      let db1 : DB := { db with payments := db.payments.map (fun q =>
          if q.payment_id == payment.payment_id then p' else q) }
      match db1.orders.find? (fun o => o.order_id == payment.order_id) with
      | none => (db, .error .internalError)
      | some order =>
        let order1 : Order := { order with paid_amount := order.paid_amount + payment.amount }
        let order2 : Order :=
          if payment.payment_for = .first ∨ payment.payment_for = .full then
            { order1 with first_payment_date := some now }
          else
            { order1 with second_payment_date := some now }
        let order3 : Order := Order.save order2
        let db2 : DB := { db1 with orders := db1.orders.map (fun o =>
            if o.order_id == order.order_id then order3 else o) }
        let items : List OrderItem := db2.orderItems.filter (fun oi => oi.order_id == order.order_id)
        ({ db2 with products := bumpProducts items db2.products }, .ok order.order_id)

/-- Outcomes of `PayPendingAmountView.post` other than success. -/
inductive PayPendingErr where
  | orderNotFound
  | noPendingAmount
  | orderClosed
  | gatewayError
  deriving DecidableEq, Repr

/-- Model of `PayPendingAmountView.post` (`apps/orders/views.py` lines 628–710).

Paths, exactly as the source: order not found → 404; `pending_amount <= 0`
→ 400 "No pending amount"; status cancelled/refunded → 400 "Cannot pay for
cancelled order"; gateway failure → 500, nothing persisted; otherwise a new
Payment for the `second` leg with `amount = order.pending_amount` is
created in `created` status.  The order row itself is never modified. -/
def payPending (db : DB) (orderId : String) (gatewayOk : Bool)
    (rzpOrderId newPaymentId : String) : DB × Except PayPendingErr String :=
  match db.orders.find? (fun o => o.order_id == orderId) with
  | none => (db, .error .orderNotFound)
  | some order =>
    if order.pending_amount ≤ 0 then
      (db, .error .noPendingAmount)
    else if order.status = .cancelled ∨ order.status = .refunded then
      (db, .error .orderClosed)
    else if !gatewayOk then
      (db, .error .gatewayError)
    else
      let payment : Payment :=
        { payment_id := newPaymentId
          order_id := orderId
          payment_for := .second
          amount := order.pending_amount
          razorpay_order_id := rzpOrderId
          razorpay_payment_id := ""
          razorpay_signature := ""
          status := .created
          error_message := ""
          paid_at := none }
      ({ db with payments := db.payments ++ [payment] }, .ok newPaymentId)

/-- Sum of `amount` over the Payments of an order with `status = success`
(the reconciliation invariant's right-hand side, spec §3/§8). -/
def successPaidSum (db : DB) (orderId : String) : ℚ :=
  ((db.payments.filter (fun p =>
      p.order_id == orderId && p.status == PaymentStatus.success)).map (·.amount)).sum

/-- The money invariant of spec §3: `pending_amount = total_amount - paid_amount`. -/
def pendingInv (o : Order) : Prop :=
  o.pending_amount = o.total_amount - o.paid_amount

/-- A rational is representable at currency precision (2 decimal places). -/
def isTwoDecimal (q : ℚ) : Prop :=
  (q * 100).den = 1

/-- Number of OrderItems of order `orderId` that reference product `pid`
(the source loops over `order.items.all()` and touches `item.product`). -/
def orderItemsCountFor (db : DB) (orderId : String) (pid : Nat) : Nat :=
  (db.orderItems.filter (fun oi => oi.order_id == orderId)).countP
    (fun oi => oi.product_id == some pid)

/-! ## Concrete fixtures

A small settled order used to exercise the duplicate-verification path:
`order1` has been fully paid (₹1000) through the single successful payment
`pay1`, so `paid_amount` currently equals `successPaidSum` and the order is
`paid`. -/

/-- A product (₹1000, half payment allowed). -/
def prod1 : Product :=
  { id := 1, title := "Prod One", slug := "prod-one", full_price := 1000,
    half_price := 500, allow_half_payment := true, orders_count := 3 }

/-- A fully settled order: total ₹1000, paid ₹1000. -/
def order1 : Order :=
  { order_id := "KJ-20260101-00001", status := .paid, payment_type := .full,
    total_amount := 1000, paid_amount := 1000, pending_amount := 0,
    first_payment_amount := 1000, second_payment_amount := 0,
    first_payment_date := some 10, second_payment_date := none,
    second_payment_due_date := none,
    user_name := "U", user_email := "u@example.com", user_phone := "9000000000",
    user_notes := "" }

/-- The single order item of `order1`, referencing `prod1`. -/
def item1 : OrderItem :=
  { order_id := "KJ-20260101-00001", product_id := some 1,
    form_submission_id := some 1, product_title := "Prod One",
    product_slug := "prod-one", unit_price := 1000 }

/-- The already-successful payment settling `order1` in full. -/
def pay1 : Payment :=
  { payment_id := "PAY-0001", order_id := "KJ-20260101-00001",
    payment_for := .full, amount := 1000,
    razorpay_order_id := "rzo-1", razorpay_payment_id := "rzp-1",
    razorpay_signature := "sig-1", status := .success, error_message := "",
    paid_at := some 10 }

/-- State after `order1` has been fully settled once. -/
def dbSettled : DB :=
  { products := [prod1], submissions := [], cartItems := [],
    orders := [order1], orderItems := [item1], payments := [pay1] }

/-- A product of ₹250 with half payment allowed. -/
def prodA : Product :=
  { id := 2, title := "Prod A", slug := "prod-a", full_price := 250,
    half_price := 125, allow_half_payment := true, orders_count := 0 }

/-- A submission for `prodA`, currently in the cart. -/
def subA : FormSubmission :=
  { id := 7, product_id := 2, status := .in_cart, price_at_submission := 250 }

/-- The cart item linking `subA` to `prodA`. -/
def cartA : CartItem :=
  { product_id := 2, form_submission_id := 7, unit_price := 250 }

/-- State just before checkout: one item in the cart, no orders yet. -/
def dbCart : DB :=
  { products := [prodA], submissions := [subA], cartItems := [cartA],
    orders := [], orderItems := [], payments := [] }

/-- A product that does not allow half payment. -/
def prodStrict : Product :=
  { id := 3, title := "Strict", slug := "strict", full_price := 400,
    half_price := 200, allow_half_payment := false, orders_count := 0 }

/-- A submission for `prodStrict`, currently in the cart. -/
def subB : FormSubmission :=
  { id := 8, product_id := 3, status := .in_cart, price_at_submission := 400 }

/-- The cart item linking `subB` to `prodStrict`. -/
def cartB : CartItem :=
  { product_id := 3, form_submission_id := 8, unit_price := 400 }

/-- State just before a half-payment checkout whose only cart item's
product disallows half payment. -/
def dbCartStrict : DB :=
  { products := [prodStrict], submissions := [subB], cartItems := [cartB],
    orders := [], orderItems := [], payments := [] }

/-- A cancelled order that was fully paid before cancellation
(`pending_amount = 0`). -/
def orderCancelled : Order :=
  { order_id := "KJ-20260101-00002", status := .cancelled, payment_type := .full,
    total_amount := 600, paid_amount := 600, pending_amount := 0,
    first_payment_amount := 600, second_payment_amount := 0,
    first_payment_date := some 11, second_payment_date := none,
    second_payment_due_date := none,
    user_name := "V", user_email := "v@example.com", user_phone := "9111111111",
    user_notes := "" }

/-- State holding only `orderCancelled`. -/
def dbCancelled : DB :=
  { products := [], submissions := [], cartItems := [],
    orders := [orderCancelled], orderItems := [], payments := [] }

/-- An order of ₹300 awaiting its payment. -/
def orderB : Order :=
  { order_id := "KJ-20260101-00003", status := .pending, payment_type := .full,
    total_amount := 300, paid_amount := 0, pending_amount := 300,
    first_payment_amount := 300, second_payment_amount := 0,
    first_payment_date := none, second_payment_date := none,
    second_payment_due_date := none,
    user_name := "W", user_email := "w@example.com", user_phone := "9222222222",
    user_notes := "" }

/-- The order item of `orderB`, referencing `prodA`. -/
def itemB : OrderItem :=
  { order_id := "KJ-20260101-00003", product_id := some 2,
    form_submission_id := some 9, product_title := "Prod A",
    product_slug := "prod-a", unit_price := 300 }

/-- The not-yet-verified payment intent for `orderB`. -/
def payB : Payment :=
  { payment_id := "PAY-0002", order_id := "KJ-20260101-00003",
    payment_for := .full, amount := 300,
    razorpay_order_id := "rzo-b", razorpay_payment_id := "",
    razorpay_signature := "", status := .created, error_message := "",
    paid_at := none }

/-- State with `orderB` awaiting verification of `payB`. -/
def dbAwaiting : DB :=
  { products := [prodA], submissions := [], cartItems := [],
    orders := [orderB], orderItems := [itemB], payments := [payB] }

/-- A refunded order whose `paid_amount` covers its total (refund recorded
only in the status, as the admin path does). -/
def orderRefunded : Order :=
  { order_id := "KJ-20260101-00004", status := .refunded, payment_type := .full,
    total_amount := 500, paid_amount := 500, pending_amount := 0,
    first_payment_amount := 500, second_payment_amount := 0,
    first_payment_date := some 12, second_payment_date := none,
    second_payment_due_date := none,
    user_name := "X", user_email := "x@example.com", user_phone := "9333333333",
    user_notes := "" }

/-! ## Theorems -/

/-- Every save re-establishes `pending_amount = total_amount - paid_amount`:
the recompute happens before the status derivation and no branch touches the
amounts. -/
theorem order_save_pending_inv (o : Order) : pendingInv (Order.save o) := by
  simp only [Order.save, pendingInv]
  split_ifs <;> rfl

/-- Orders are never touched by `payPending`: every path of the source
either errors out or only appends a Payment row. -/
theorem payPending_orders_unchanged (db : DB) (oid : String) (gok : Bool)
    (rzo npid : String) :
    (payPending db oid gok rzo npid).1.orders = db.orders := by
  simp only [payPending]
  split
  · rfl
  · split_ifs <;> rfl

/-- Checkout preserves the pending-amount invariant over all stored orders:
error paths leave the order table alone, the success path appends an order
that just went through `Order.save`, and the gateway-failure path deletes
that same order again. -/
theorem checkout_orders_pendingInv (db : DB) (ptype : PaymentType)
    (un ue up uno noid : String) (today : Nat) (gok : Bool) (rzo npid : String)
    (hinv : ∀ o ∈ db.orders, pendingInv o) :
    ∀ o ∈ (checkout db ptype un ue up uno noid today gok rzo npid).1.orders,
      pendingInv o := by
  intro o ho
  simp only [checkout] at ho
  split at ho
  · exact hinv o ho
  · split at ho
    · exact hinv o ho
    · split at ho
      · rcases List.mem_append.mp ho with h | h
        · exact hinv o h
        · rcases List.mem_singleton.mp h with rfl
          exact order_save_pending_inv _
      · rcases List.mem_filter.mp ho with ⟨h, _⟩
        rcases List.mem_append.mp h with h | h
        · exact hinv o h
        · rcases List.mem_singleton.mp h with rfl
          exact order_save_pending_inv _

/-- Payment verification preserves the pending-amount invariant over all
stored orders: the settled order is rewritten through `Order.save`, every
other order row is untouched. -/
theorem verify_orders_pendingInv (db : DB) (rzo rzp sig : String) (sv : Bool)
    (now : Nat)
    (hinv : ∀ o ∈ db.orders, pendingInv o) :
    ∀ o ∈ (verifyPayment db rzo rzp sig sv now).1.orders, pendingInv o := by
  intro o ho
  simp only [verifyPayment] at ho
  split at ho
  · exact hinv o ho
  · split at ho
    · exact hinv o ho
    · split at ho
      · exact hinv o ho
      · rcases List.mem_map.mp ho with ⟨a, ha, rfl⟩
        split
        · exact order_save_pending_inv _
        · exact hinv a ha

/-- C2: after every operation that persists an Order — checkout,
verify-and-settle, pay-pending, and any `Order.save` — `pending_amount`
equals `total_amount - paid_amount` for every stored Order. -/
theorem pending_amount_invariant_all_ops :
    (∀ o : Order, pendingInv (Order.save o)) ∧
    (∀ (db : DB) (ptype : PaymentType) (un ue up uno noid : String) (today : Nat)
        (gok : Bool) (rzo npid : String),
      (∀ o ∈ db.orders, pendingInv o) →
      ∀ o ∈ (checkout db ptype un ue up uno noid today gok rzo npid).1.orders,
        pendingInv o) ∧
    (∀ (db : DB) (rzo rzp sig : String) (sv : Bool) (now : Nat),
      (∀ o ∈ db.orders, pendingInv o) →
      ∀ o ∈ (verifyPayment db rzo rzp sig sv now).1.orders, pendingInv o) ∧
    (∀ (db : DB) (oid : String) (gok : Bool) (rzo npid : String),
      (∀ o ∈ db.orders, pendingInv o) →
      ∀ o ∈ (payPending db oid gok rzo npid).1.orders, pendingInv o) := by
  refine ⟨order_save_pending_inv, checkout_orders_pendingInv, verify_orders_pendingInv,
    ?_⟩
  intro db oid gok rzo npid hinv o ho
  rw [payPending_orders_unchanged] at ho
  exact hinv o ho

/-- C2 witness: the invariant hypothesis holds of `dbSettled` and the
theorem instantiates there, giving the invariant for `order1` after a
concrete pay-pending call. -/
theorem pending_amount_invariant_all_ops_witness : pendingInv order1 := by
  have hinv : ∀ o ∈ dbSettled.orders, pendingInv o := by
    intro o ho
    simp only [dbSettled, List.mem_singleton] at ho
    subst ho
    norm_num [order1, pendingInv]
  refine pending_amount_invariant_all_ops.2.2.2 dbSettled "KJ-20260101-00001" true
    "rzo-9" "PAY-9" hinv order1 ?_
  rw [payPending_orders_unchanged]
  simp [dbSettled]

/-- C1: refuted on the code — `VerifyPaymentView.post` has no
already-success guard, so re-verifying the already-successful payment
`pay1` (same payment reference, valid signature) credits its amount a
second time: `order1.paid_amount` goes from 1000 to 2000 and the order
row changes, where the claim demands the Order be returned unchanged. -/
theorem verify_already_success_double_credits :
    pay1.status = .success ∧
    order1.paid_amount = 1000 ∧
    ((verifyPayment dbSettled "rzo-1" "rzp-1" "sig-1" true 20).1.orders.find?
        (fun o => o.order_id == order1.order_id)).map Order.paid_amount = some 2000 ∧
    (verifyPayment dbSettled "rzo-1" "rzp-1" "sig-1" true 20).1.orders ≠
      dbSettled.orders := by
  refine ⟨rfl, rfl, ?_, ?_⟩
  · norm_num [verifyPayment, dbSettled, pay1, order1, prod1, item1, Order.save,
      bumpProducts, List.find?]
  · norm_num [verifyPayment, dbSettled, pay1, order1, prod1, item1, Order.save,
      bumpProducts, List.find?, Order.mk.injEq]

/-- C3: refuted on the code — before the duplicate verification the
invariant `paid_amount = Σ amount of success Payments` holds of
`dbSettled` (1000 = 1000); after re-verifying the same already-successful
payment, `paid_amount` is 2000 while the success-payment sum is still
1000: the engine adds the same payment's amount twice. -/
theorem paid_amount_sum_invariant_broken :
    successPaidSum dbSettled order1.order_id = order1.paid_amount ∧
    ((verifyPayment dbSettled "rzo-1" "rzp-1" "sig-1" true 20).1.orders.find?
        (fun o => o.order_id == order1.order_id)).map Order.paid_amount = some 2000 ∧
    successPaidSum (verifyPayment dbSettled "rzo-1" "rzp-1" "sig-1" true 20).1
        order1.order_id = 1000 ∧
    (2000 : ℚ) ≠ 1000 := by
  refine ⟨?_, ?_, ?_, by norm_num⟩
  · norm_num [successPaidSum, dbSettled, pay1, order1, List.filter]
  · norm_num [verifyPayment, dbSettled, pay1, order1, prod1, item1, Order.save,
      bumpProducts, List.find?]
  · norm_num [verifyPayment, successPaidSum, dbSettled, pay1, order1, prod1, item1,
      Order.save, bumpProducts, List.find?, List.filter]

/-- C4 counterexample: the source's exclusion list
(`[PROCESSING, COMPLETED, CANCELLED]`) does not contain REFUNDED, so
saving the fully-paid refunded order `orderRefunded` flips its status to
`paid`, where the claim says a refunded order's status is left as it was. -/
theorem refunded_order_flips_to_paid :
    orderRefunded.status = .refunded ∧
    orderRefunded.paid_amount = orderRefunded.total_amount ∧
    (Order.save orderRefunded).status = .paid := by
  refine ⟨rfl, rfl, ?_⟩
  norm_num [Order.save, orderRefunded]
  simp

/-- C4 (amended: `refunded` is not among the protected statuses): on every
save, if `paid_amount >= total_amount` the status becomes `paid` unless it
is `processing`, `completed` or `cancelled` (a `refunded` status is
overwritten); if `0 < paid_amount < total_amount` and the status was
`pending` it becomes `partial_paid`; in all other cases it is unchanged. -/
theorem order_save_status_derivation (o : Order) :
    (Order.save o).status =
      if o.total_amount ≤ o.paid_amount then
        if o.status = .processing ∨ o.status = .completed ∨ o.status = .cancelled then
          o.status
        else .paid
      else if 0 < o.paid_amount then
        if o.status = .pending then .partial_paid else o.status
      else o.status := by
  simp only [Order.save]
  split_ifs <;> rfl

/-- C5: refuted on the code — when the gateway call fails during checkout
of `dbCart`, the caught exception lets the transaction commit: the Order,
OrderItems and Payment are indeed absent (the order was deleted), but the
cart has been cleared (it held `cartA` before) and the submission's status
has moved from `in_cart` to `ordered`, where the claim demands the cart and
submission statuses be unchanged. -/
theorem gateway_failure_leaves_partial_state :
    (checkout dbCart .full "U" "u@e" "9" "" "KJ-NEW" 100 false "rzoX" "PAY-X").2 =
      .error .gatewayError ∧
    (checkout dbCart .full "U" "u@e" "9" "" "KJ-NEW" 100 false "rzoX" "PAY-X").1 =
      { products := [prodA], submissions := [{ subA with status := .ordered }],
        cartItems := [], orders := [], orderItems := [], payments := [] } ∧
    dbCart.cartItems = [cartA] ∧
    subA.status = .in_cart := by
  refine ⟨?_, ?_, rfl, rfl⟩
  · norm_num [checkout, dbCart, cartA, subA, prodA, halfDisallowed, findProduct,
      cartTotalAmount, firstPaymentAmount, secondPaymentAmount, Order.save,
      List.find?, List.filter]
  · norm_num [checkout, dbCart, cartA, subA, prodA, halfDisallowed, findProduct,
      cartTotalAmount, firstPaymentAmount, secondPaymentAmount, Order.save,
      List.find?, List.filter]

/-- C6 counterexample: for a cart total of 99.99 the computed first leg is
`99.99 / 2 = 49.995`, which is not representable at currency precision
(2 decimal places) — the source rounds neither leg, so the claim's "at
currency precision" qualifier fails. -/
theorem half_split_of_9999_not_two_decimal :
    firstPaymentAmount .half (99.99 : ℚ) = 49.995 ∧
    ¬ isTwoDecimal (firstPaymentAmount .half (99.99 : ℚ)) ∧
    isTwoDecimal (99.99 : ℚ) := by
  refine ⟨by norm_num [firstPaymentAmount], ?_, ?_⟩
  · norm_num [firstPaymentAmount, isTwoDecimal]
  · norm_num [isTwoDecimal]

/-- C6 (amended: the legs are exact, unrounded rationals rather than
2-decimal currency values): for every cart total, the half-payment split
computes `first = total / 2` and `second = total - first`, and the two
legs sum to the total exactly — for every payment type, in fact. -/
theorem half_split_exact :
    (∀ (ptype : PaymentType) (total : ℚ),
        firstPaymentAmount ptype total + secondPaymentAmount ptype total = total) ∧
    (∀ total : ℚ,
        firstPaymentAmount .half total = total / 2 ∧
        secondPaymentAmount .half total = total - firstPaymentAmount .half total) := by
  constructor
  · intro ptype total
    cases ptype <;> simp [firstPaymentAmount, secondPaymentAmount]
  · intro total
    simp [firstPaymentAmount, secondPaymentAmount]

/-- C7: a half-payment checkout over a non-empty cart holding at least one
item whose product disallows half payment fails with the error naming an
offending product, and the whole state — orders, cart items, submissions —
is returned unchanged. -/
theorem half_checkout_rejects_disallowed_product (db : DB)
    (un ue up uno noid : String) (today : Nat) (gok : Bool) (rzo npid : String)
    (hne : db.cartItems ≠ [])
    (hoff : ∃ it ∈ db.cartItems, ∃ p, findProduct db it.product_id = some p ∧
        p.allow_half_payment = false) :
    ∃ p : Product, p.allow_half_payment = false ∧
      (∃ it ∈ db.cartItems, findProduct db it.product_id = some p) ∧
      checkout db .half un ue up uno noid today gok rzo npid =
        (db, .error (.halfNotAllowed ("Half payment not allowed for: " ++ p.title))) := by
  have hsome : (db.cartItems.find? (fun it =>
      (PaymentType.half == PaymentType.half) && halfDisallowed db it)).isSome := by
    rw [List.find?_isSome]
    obtain ⟨it, hit, p, hp, hpa⟩ := hoff
    exact ⟨it, hit, by simp [halfDisallowed, hp, hpa]⟩
  obtain ⟨it0, h0⟩ := Option.isSome_iff_exists.mp hsome
  have hpred := List.find?_some h0
  simp only [Bool.and_eq_true, beq_self_eq_true, true_and] at hpred
  obtain ⟨p0, hp0, hpa0⟩ : ∃ p, findProduct db it0.product_id = some p ∧
      p.allow_half_payment = false := by
    unfold halfDisallowed at hpred
    cases hfp : findProduct db it0.product_id with
    | none => rw [hfp] at hpred; simp at hpred
    | some p =>
        rw [hfp] at hpred
        simp only [Bool.not_eq_true'] at hpred
        exact ⟨p, rfl, hpred⟩
  refine ⟨p0, hpa0, ⟨it0, List.mem_of_find?_eq_some h0, hp0⟩, ?_⟩
  have hlen : ¬(db.cartItems.length = 0) := fun h => hne (List.length_eq_zero.mp h)
  simp only [checkout]
  rw [if_neg hlen, h0]
  simp [hp0]

/-- C7 witness: the concrete half checkout over `dbCartStrict` (whose only
item's product `prodStrict` disallows half payment) errors naming
`Strict` and leaves the state unchanged. -/
theorem half_checkout_rejects_disallowed_product_witness :
    checkout dbCartStrict .half "U" "u@e" "9" "" "KJ-W" 0 true "rzo-w" "PAY-W" =
      (dbCartStrict, .error (.halfNotAllowed "Half payment not allowed for: Strict")) := by
  obtain ⟨p, hpa, ⟨it, hit, hp⟩, heq⟩ :=
    half_checkout_rejects_disallowed_product dbCartStrict "U" "u@e" "9" "" "KJ-W" 0
      true "rzo-w" "PAY-W" (by simp [dbCartStrict])
      ⟨cartB, by simp [dbCartStrict], prodStrict,
        by simp [findProduct, dbCartStrict, cartB, prodStrict, List.find?], rfl⟩
  simp only [dbCartStrict, List.mem_singleton] at hit
  subst hit
  simp only [findProduct, dbCartStrict, cartB, prodStrict, List.find?] at hp
  norm_num at hp
  rw [heq, ← hp]
  rfl

/-- C8 counterexample: on the cancelled-and-settled order `orderCancelled`
(`pending_amount = 0`, status `cancelled`), `pay_pending` fails with the
no-pending-amount error, not the order-closed error the claim requires for
every cancelled or refunded order — the pending check runs first. -/
theorem pay_pending_cancelled_settled_not_order_closed :
    orderCancelled.status = .cancelled ∧
    payPending dbCancelled orderCancelled.order_id true "rzo-c" "PAY-C" =
      (dbCancelled, .error .noPendingAmount) ∧
    (Except.error PayPendingErr.noPendingAmount : Except PayPendingErr String) ≠
      .error .orderClosed := by
  refine ⟨rfl, ?_, by simp⟩
  norm_num [payPending, dbCancelled, orderCancelled, List.find?]

/-- C8 (amended: the `pending_amount <= 0` check runs first, so the
order-closed error applies only to cancelled/refunded orders that still
have a positive pending amount): `pay_pending` fails with
no-pending-amount whenever `pending_amount <= 0` without creating a
Payment, fails with order-closed on a cancelled or refunded order with
positive pending amount without creating a Payment, and otherwise (gateway
up) appends exactly one new Payment whose amount equals the order's
`pending_amount`. -/
theorem pay_pending_checks_and_amount (db : DB) (oid : String) (gok : Bool)
    (rzo npid : String) (o : Order)
    (hfind : db.orders.find? (fun x => x.order_id == oid) = some o) :
    (o.pending_amount ≤ 0 →
      payPending db oid gok rzo npid = (db, .error .noPendingAmount)) ∧
    (0 < o.pending_amount → (o.status = .cancelled ∨ o.status = .refunded) →
      payPending db oid gok rzo npid = (db, .error .orderClosed)) ∧
    (0 < o.pending_amount → ¬(o.status = .cancelled ∨ o.status = .refunded) →
      gok = true →
      (payPending db oid gok rzo npid).2 = .ok npid ∧
      (payPending db oid gok rzo npid).1.orders = db.orders ∧
      ∃ pmt : Payment,
        (payPending db oid gok rzo npid).1.payments = db.payments ++ [pmt] ∧
        pmt.amount = o.pending_amount ∧ pmt.payment_for = .second ∧
        pmt.status = .created) := by
  refine ⟨?_, ?_, ?_⟩
  · intro hle
    simp only [payPending, hfind]
    rw [if_pos hle]
  · intro hgt hst
    simp only [payPending, hfind]
    rw [if_neg (not_le.mpr hgt), if_pos hst]
  · intro hgt hst hg
    subst hg
    simp only [payPending, hfind]
    rw [if_neg (not_le.mpr hgt), if_neg hst]
    simp only [Bool.not_true, Bool.false_eq_true, if_false]
    exact ⟨trivial, trivial, _, rfl, rfl, rfl, rfl⟩

/-- C8 witness: on `orderB` (pending ₹300, status `pending`) the success
branch of the theorem applies: the concrete pay-pending call returns the
new payment id. -/
theorem pay_pending_checks_and_amount_witness :
    (payPending dbAwaiting "KJ-20260101-00003" true "rzo-w2" "PAY-W2").2 =
      .ok "PAY-W2" := by
  have h := (pay_pending_checks_and_amount dbAwaiting "KJ-20260101-00003" true
    "rzo-w2" "PAY-W2" orderB
    (by simp [dbAwaiting, orderB, List.find?])).2.2
  exact (h (by norm_num [orderB]) (by simp [orderB]) rfl).1

/-- C9: when signature verification rejects the submitted triple, the
found Payment is marked `failed` with its error message set and this is
the only change persisted — orders (and every other table) are exactly as
before — and the error is surfaced to the caller. -/
theorem failed_signature_marks_payment_failed_order_untouched (db : DB)
    (rzo rzp sig : String) (now : Nat) (p : Payment)
    (hfind : db.payments.find? (fun q => q.razorpay_order_id == rzo) = some p) :
    (verifyPayment db rzo rzp sig false now).2 = .error .signatureFailed ∧
    (verifyPayment db rzo rzp sig false now).1.orders = db.orders ∧
    (verifyPayment db rzo rzp sig false now).1.products = db.products ∧
    (verifyPayment db rzo rzp sig false now).1.submissions = db.submissions ∧
    (verifyPayment db rzo rzp sig false now).1.cartItems = db.cartItems ∧
    (verifyPayment db rzo rzp sig false now).1.orderItems = db.orderItems ∧
    (verifyPayment db rzo rzp sig false now).1.payments =
      db.payments.map (fun q => if q.payment_id == p.payment_id then
        { p with status := .failed, error_message := "Signature verification failed" }
        else q) ∧
    ∃ q ∈ (verifyPayment db rzo rzp sig false now).1.payments,
      q.payment_id = p.payment_id ∧ q.status = .failed ∧
      q.error_message = "Signature verification failed" := by
  simp only [verifyPayment, hfind, Bool.not_false, if_true]
  refine ⟨trivial, trivial, trivial, trivial, trivial, trivial, trivial, ?_⟩
  have hmem : p ∈ db.payments := List.mem_of_find?_eq_some hfind
  refine ⟨_, List.mem_map_of_mem _ hmem, ?_, ?_, ?_⟩ <;> simp

/-- C9 witness: verifying `payB` with a rejected signature errors and
leaves the order table of `dbAwaiting` unchanged. -/
theorem failed_signature_marks_payment_failed_order_untouched_witness :
    (verifyPayment dbAwaiting "rzo-b" "rzp-x" "bad" false 50).2 =
      .error .signatureFailed ∧
    (verifyPayment dbAwaiting "rzo-b" "rzp-x" "bad" false 50).1.orders =
      dbAwaiting.orders := by
  have h := failed_signature_marks_payment_failed_order_untouched dbAwaiting
    "rzo-b" "rzp-x" "bad" 50 payB (by simp [dbAwaiting, payB, List.find?])
  exact ⟨h.1, h.2.1⟩

/-- Counting lemma for the product-counter loop: position by position,
bumping over a list of order items adds to each product's `orders_count`
the number of items that reference that product's id. -/
theorem bumpProducts_getElem? (items : List OrderItem) (ps : List Product) (i : Nat) :
    (bumpProducts items ps)[i]? = ps[i]?.map (fun pr =>
      { pr with orders_count := pr.orders_count +
          items.countP (fun oi => oi.product_id == some pr.id) }) := by
  induction items generalizing ps with
  | nil =>
      simp only [bumpProducts, List.foldl_nil, List.countP_nil, Nat.add_zero]
      cases ps[i]? <;> rfl
  | cons oi rest ih =>
      cases hpid : oi.product_id with
      | none =>
          have hstep : bumpProducts (oi :: rest) ps = bumpProducts rest ps := by
            simp [bumpProducts, hpid]
          rw [hstep, ih]
          cases ps[i]? with
          | none => rfl
          | some pr =>
              simp only [Option.map_some', Option.some.injEq]
              have : (oi.product_id == some pr.id) = false := by
                simp [hpid]
              simp [List.countP_cons, this]
      | some pid =>
          have hstep : bumpProducts (oi :: rest) ps =
              bumpProducts rest (ps.map (fun pr =>
                if pr.id == pid then { pr with orders_count := pr.orders_count + 1 }
                else pr)) := by
            simp [bumpProducts, hpid]
          rw [hstep, ih, List.getElem?_map]
          cases ps[i]? with
          | none => rfl
          | some pr =>
              simp only [Option.map_some', Option.some.injEq]
              by_cases h : pr.id = pid
              · simp only [h, beq_self_eq_true, if_pos]
                simp [List.countP_cons, hpid, h, Nat.add_assoc, Nat.add_comm]
              · have hb : (pr.id == pid) = false := by simp [h]
                simp only [hb, Bool.false_eq_true, if_neg, not_false_iff]
                have : (oi.product_id == some pr.id) = false := by
                  simp [hpid, h, Ne.symm h]
                simp [List.countP_cons, this]

/-- C10: every successful verify-and-settle, besides updating the Payment
and the Order, increments `orders_count` by one for the product of every
OrderItem of the settled order (per referencing item; items whose product
reference is gone contribute nothing) — a catalog side effect repeated on
every successful verification. -/
theorem verify_success_increments_product_orders_count (db : DB)
    (rzo rzp sig : String) (now : Nat) (p : Payment) (o : Order)
    (hp : db.payments.find? (fun q => q.razorpay_order_id == rzo) = some p)
    (ho : db.orders.find? (fun x => x.order_id == p.order_id) = some o) :
    (verifyPayment db rzo rzp sig true now).2 = .ok o.order_id ∧
    ∀ i : Nat, (verifyPayment db rzo rzp sig true now).1.products[i]? =
      db.products[i]?.map (fun pr =>
        { pr with orders_count := pr.orders_count + orderItemsCountFor db o.order_id pr.id }) := by
  constructor
  · simp only [verifyPayment, hp, Bool.not_true, Bool.false_eq_true, if_false, ho]
  · intro i
    simp only [verifyPayment, hp, Bool.not_true, Bool.false_eq_true, if_false, ho,
      orderItemsCountFor]
    exact bumpProducts_getElem? _ _ _

/-- C10 witness: successfully verifying `payB` on `dbAwaiting` bumps
`prodA.orders_count` from 0 to 1 (one order item of `orderB` references
it). -/
theorem verify_success_increments_product_orders_count_witness :
    (verifyPayment dbAwaiting "rzo-b" "rzp-y" "good" true 60).1.products[0]? =
      some { prodA with orders_count := 1 } := by
  have h := (verify_success_increments_product_orders_count dbAwaiting "rzo-b"
    "rzp-y" "good" 60 payB orderB
    (by simp [dbAwaiting, payB, List.find?])
    (by simp [dbAwaiting, payB, orderB, List.find?])).2 0
  rw [h]
  norm_num [dbAwaiting, prodA, orderItemsCountFor, itemB, orderB, List.filter]

end Kaagjee
